import Mathlib

/-!
Verification of the cart-and-order consistency surface of the
Chandru e-commerce product service (`src/services/product/app.py`).

The Python handlers are shallowly embedded:
* a cart (a Python dict from product-id string to a line dict) becomes an
  association list `Cart`;
* the Redis / in-memory persistence layer (`get_cart_data` / `set_cart_data`)
  becomes a `Store` threaded explicitly, with Boolean flags standing for
  whether the backing Redis call succeeds (a `RedisError` is the `false`
  case); `Store.writeCount` counts the `set_cart_data` calls a handler makes;
* `abort(400, ...)` / `abort(404, ...)` become `Except.error` values of
  `ApiError`; handlers return the unchanged store alongside the error, since
  `abort` raises before any write happens;
* Python floats used for prices are modelled as rationals, JSON-integer
  fields as `Int` / `Nat`, and `payload.get(key, default)` as
  `Option.getD`.
-/

namespace ECommerce

/-- A product row of the catalog (`Product` model in `app.py`): only the
fields the cart handlers read. -/
structure Product where
  id : Nat
  title : String
  price : ℚ
  deriving Repr, DecidableEq

/-- One cart line: the dict `{quantity, title, price}` stored per product. -/
structure CartLine where
  quantity : Int
  title : String
  price : ℚ
  deriving Repr, DecidableEq

/-- A user's cart: the dict from product-id string to cart line. -/
abbrev Cart := List (String × CartLine)

/-- Dict lookup `d.get(k)`: the value at the first occurrence of `k`. -/
def assocGet {α : Type} : List (String × α) → String → Option α
  | [], _ => none
  | e :: es, k => if e.1 = k then some e.2 else assocGet es k

/-- Dict membership test `k in d`. -/
def assocHas {α : Type} : List (String × α) → String → Bool
  | [], _ => false
  | e :: es, k => e.1 = k || assocHas es k

/-- Dict assignment `d[k] = v`: replace the binding of `k`, or append it. -/
def assocSet {α : Type} : List (String × α) → String → α → List (String × α)
  | [], k, v => [(k, v)]
  | e :: es, k, v => if e.1 = k then (k, v) :: es else e :: assocSet es k v

/-- Dict removal `d.pop(k, None)`: drop every binding of `k`. -/
def assocPop {α : Type} : List (String × α) → String → List (String × α)
  | [], _ => []
  | e :: es, k => if e.1 = k then assocPop es k else e :: assocPop es k

/-- A cart as persisted in the session store, together with the TTL (in
seconds) the last write set on it. -/
structure StoredCart where
  value : Cart
  ttl : Nat
  deriving Repr, DecidableEq

/-- The session store (Redis, or the `_memory_carts` fallback): carts keyed
by user id, plus a count of the full-cart writes issued so far. -/
structure Store where
  entries : List (String × StoredCart)
  writeCount : Nat
  deriving Repr, DecidableEq

/-- The 24-hour TTL passed to `redis.set` (`ex=60 * 60 * 24`). -/
def CART_TTL : Nat := 60 * 60 * 24

/-- `get_cart_data(user_id)`: returns the stored mapping, `{}` if absent, and
`{}` when the Redis read raises (`readOk = false`). -/
def get_cart_data (readOk : Bool) (s : Store) (uid : String) : Cart :=
  if readOk then ((assocGet s.entries uid).map StoredCart.value).getD [] else []

/-- `set_cart_data(user_id, data)`: overwrites the stored cart with a 24h TTL
and returns `True`; when the Redis write raises (`writeOk = false`) it logs
and returns `False`, leaving the stored data untouched. Either way one write
was issued. -/
def set_cart_data (writeOk : Bool) (s : Store) (uid : String) (data : Cart) :
    Store × Bool :=
  if writeOk then
    ({ entries := assocSet s.entries uid ⟨data, CART_TTL⟩,
       writeCount := s.writeCount + 1 }, true)
  else
    ({ s with writeCount := s.writeCount + 1 }, false)

/-- The typed failures the handlers can `abort` with: HTTP 400 and 404. -/
inductive ApiError where
  | badRequest (msg : String)
  | notFound (msg : String)
  deriving Repr, DecidableEq

/-- `Product.query.get(product_id)`: catalog lookup by primary key. -/
def findById (catalog : List Product) (pid : Nat) : Option Product :=
  catalog.find? (fun p => p.id = pid)

/-- Python `str(payload.get("product_id"))`: a missing field stringifies as
`"None"` (no 400 is raised in the update/delete handlers). -/
def pidKey : Option Nat → String
  | none => "None"
  | some n => toString n

/-- `api_cart_add` (POST /api/cart/<user_id>): `abort(400)` when
`product_id` is falsy (absent or `0`), `abort(404)` when it does not resolve
in the catalog; otherwise adds `quantity` (default 1) to the existing line's
quantity (0 when absent), refreshes the title/price snapshot, writes the cart
back and returns it. -/
def api_cart_add (catalog : List Product) (readOk writeOk : Bool) (s : Store)
    (uid : String) (product_id : Option Nat) (quantity : Option Int) :
    Except ApiError Cart × Store :=
  let qty := quantity.getD 1
  match product_id with
  | none => (.error (.badRequest "product_id required"), s)
  | some pid =>
    if pid = 0 then (.error (.badRequest "product_id required"), s)
    else
      match findById catalog pid with
      | none => (.error (.notFound "product not found"), s)
      | some p =>
        let cart := get_cart_data readOk s uid
        let prev := ((assocGet cart (toString pid)).map CartLine.quantity).getD 0
        let line : CartLine := { quantity := prev + qty, title := p.title, price := p.price }
        let cart2 := assocSet cart (toString pid) line
        (.ok cart2, (set_cart_data writeOk s uid cart2).1)

/-- `api_cart_update` (PUT /api/cart/<user_id>): `abort(404)` when the key is
not in the cart; with `quantity <= 0` (default 0) pops the line, otherwise
overwrites the line's quantity with the given value; writes back and returns
the cart. -/
def api_cart_update (readOk writeOk : Bool) (s : Store) (uid : String)
    (product_id : Option Nat) (quantity : Option Int) :
    Except ApiError Cart × Store :=
  let key := pidKey product_id
  let qty := quantity.getD 0
  let cart := get_cart_data readOk s uid
  if assocHas cart key then
    if qty ≤ 0 then
      let cart2 := assocPop cart key
      (.ok cart2, (set_cart_data writeOk s uid cart2).1)
    else
      let cart2 := cart.map (fun e => if e.1 = key then (e.1, { e.2 with quantity := qty }) else e)
      (.ok cart2, (set_cart_data writeOk s uid cart2).1)
  else
    (.error (.notFound "item not in cart"), s)

/-- `api_cart_delete` (DELETE /api/cart/<user_id>): pops the line and writes
back only when the key is present; always returns the (possibly unchanged)
cart. -/
def api_cart_delete (readOk writeOk : Bool) (s : Store) (uid : String)
    (product_id : Option Nat) : Except ApiError Cart × Store :=
  let key := pidKey product_id
  let cart := get_cart_data readOk s uid
  if assocHas cart key then
    let cart2 := assocPop cart key
    (.ok cart2, (set_cart_data writeOk s uid cart2).1)
  else
    (.ok cart, s)

/-- The order record built by `api_checkout` (`order_id`/`created_at` both
derive from the wall clock, passed in as `now`). -/
structure Order where
  order_id : Nat
  user_id : String
  items : Cart
  total : ℚ
  payment_method : String
  customer : String
  status : String
  deriving Repr, DecidableEq

/-- `sum(item["price"] * item["quantity"] for item in cart.values())`. -/
def cartTotal (c : Cart) : ℚ :=
  (c.map (fun e => e.2.price * (e.2.quantity : ℚ))).sum

/-- `api_checkout` (POST /api/checkout/<user_id>): `abort(400, "cart empty")`
on a falsy (empty) cart; otherwise builds the order from the snapshot lines
and clears the cart with one write. -/
def api_checkout (readOk writeOk : Bool) (now : Nat) (s : Store) (uid : String)
    (payment_method : Option String) (customer : Option String) :
    Except ApiError Order × Store :=
  let pm := payment_method.getD "card"
  let cust := customer.getD ""
  let cart := get_cart_data readOk s uid
  if cart.isEmpty then (.error (.badRequest "cart empty"), s)
  else
    let order : Order :=
      { order_id := now, user_id := uid, items := cart, total := cartTotal cart,
        payment_method := pm, customer := cust, status := "confirmed" }
    (.ok order, (set_cart_data writeOk s uid []).1)

/-! ### Concrete data for witnesses -/

/-- Two products from the `/admin/seed` data. -/
def demoCatalog : List Product :=
  [{ id := 1, title := "Phone Model X", price := 69999/100 },
   { id := 2, title := "Wireless Headphones", price := 19999/100 }]

/-- The demo catalog after a price/title change to product 1, to exercise
snapshot refresh. -/
def repricedCatalog : List Product :=
  [{ id := 1, title := "Phone Model X v2", price := 59999/100 }]

/-- A store with no carts at all. -/
def emptyStore : Store := { entries := [], writeCount := 0 }

/-- A cart line for product 1: quantity 2 at the seeded price. -/
def demoLine : CartLine :=
  { quantity := 2, title := "Phone Model X", price := 69999/100 }

/-- A store where user `u1` has product 1 in the cart. -/
def demoStore : Store :=
  { entries := [("u1", { value := [("1", demoLine)], ttl := CART_TTL })],
    writeCount := 0 }

/-! ### Request sequences (for the cart invariant) -/

/-- One cart-surface request, carrying the target user and its payload. -/
inductive CartOp where
  | opGet (uid : String)
  | opAdd (uid : String) (pid : Option Nat) (qty : Option Int)
  | opUpdate (uid : String) (pid : Option Nat) (qty : Option Int)
  | opRemove (uid : String) (pid : Option Nat)
  | opCheckout (uid : String) (pm cust : Option String)
  deriving Repr, DecidableEq

/-- The store after handling one request (a failed request leaves the store
unchanged, since every `abort` fires before the write-back). -/
def applyOp (cat : List Product) (s : Store) : CartOp → Store
  | .opGet _ => s
  | .opAdd u pid q => (api_cart_add cat true true s u pid q).2
  | .opUpdate u pid q => (api_cart_update true true s u pid q).2
  | .opRemove u pid => (api_cart_delete true true s u pid).2
  | .opCheckout u pm c => (api_checkout true true 0 s u pm c).2

/-- The store after a whole request sequence. -/
def runOps (cat : List Product) (s : Store) : List CartOp → Store
  | [] => s
  | op :: ops => runOps cat (applyOp cat s op) ops

/-- An add request carries a positive quantity (an absent field defaults
to 1). Other requests are unconstrained. -/
def opPosQty : CartOp → Prop
  | .opAdd _ _ q => 0 < q.getD 1
  | _ => True

/-- Every line of a cart has positive quantity. -/
def CartWF (c : Cart) : Prop := ∀ l ∈ c, 0 < l.2.quantity

/-- Every line of every stored cart has positive quantity. -/
def StoreWF (s : Store) : Prop :=
  ∀ e ∈ s.entries, ∀ l ∈ e.2.value, 0 < l.2.quantity

/-! ### Association-list lemmas -/

theorem assocGet_assocSet_self {α : Type} (es : List (String × α)) (k : String) (v : α) :
    assocGet (assocSet es k v) k = some v := by
  induction es with
  | nil => simp [assocSet, assocGet]
  | cons e es ih =>
    by_cases h : e.1 = k <;> simp [assocSet, assocGet, h, ih]

theorem assocGet_assocPop_self {α : Type} (es : List (String × α)) (k : String) :
    assocGet (assocPop es k) k = none := by
  induction es with
  | nil => simp [assocPop, assocGet]
  | cons e es ih =>
    by_cases h : e.1 = k <;> simp [assocPop, assocGet, h, ih]

theorem assocHas_eq_false_iff {α : Type} (es : List (String × α)) (k : String) :
    assocHas es k = false ↔ assocGet es k = none := by
  induction es with
  | nil => simp [assocHas, assocGet]
  | cons e es ih =>
    by_cases h : e.1 = k <;> simp [assocHas, assocGet, h, ih]

theorem assocGet_mem {α : Type} {es : List (String × α)} {k : String} {v : α}
    (h : assocGet es k = some v) : (k, v) ∈ es := by
  induction es with
  | nil => simp [assocGet] at h
  | cons e es ih =>
    obtain ⟨k0, v0⟩ := e
    by_cases he : k0 = k
    · simp [assocGet, he] at h
      subst he
      subst h
      exact List.mem_cons_self _ _
    · simp [assocGet, he] at h
      exact List.mem_cons_of_mem _ (ih h)

theorem mem_assocSet {α : Type} {es : List (String × α)} {k : String} {v : α}
    {e : String × α} (h : e ∈ assocSet es k v) : e = (k, v) ∨ e ∈ es := by
  induction es with
  | nil => simp [assocSet] at h; exact Or.inl h
  | cons e0 es ih =>
    by_cases he : e0.1 = k
    · simp [assocSet, he] at h
      rcases h with h | h
      · exact Or.inl h
      · exact Or.inr (List.mem_cons_of_mem _ h)
    · simp [assocSet, he] at h
      rcases h with h | h
      · exact Or.inr (by simp [h])
      · rcases ih h with h2 | h2
        · exact Or.inl h2
        · exact Or.inr (List.mem_cons_of_mem _ h2)

theorem mem_assocPop {α : Type} {es : List (String × α)} {k : String}
    {e : String × α} (h : e ∈ assocPop es k) : e ∈ es := by
  induction es with
  | nil => simp [assocPop] at h
  | cons e0 es ih =>
    by_cases he : e0.1 = k
    · simp [assocPop, he] at h
      exact List.mem_cons_of_mem _ (ih h)
    · simp [assocPop, he] at h
      rcases h with h | h
      · simp [h]
      · exact List.mem_cons_of_mem _ (ih h)

/-- Reading back right after a successful write returns exactly the data
that was written. -/
theorem get_set_cart (s : Store) (u : String) (c : Cart) :
    get_cart_data true (set_cart_data true s u c).1 u = c := by
  simp [get_cart_data, set_cart_data, assocGet_assocSet_self]

/-! ### Claim theorems -/

/-- C1: for every user whose cart is non-empty, checkout returns an order
whose total is the sum of snapshot price × quantity over the cart lines, with
status "confirmed"; afterwards the user's cart is the empty mapping, so an
immediately repeated checkout fails with the EmptyCart error (`abort(400,
"cart empty")`) — checkout is not idempotent. -/
theorem checkout_clears_cart_not_idempotent (s : Store) (u : String)
    (pm cust : Option String) (n1 n2 : Nat)
    (h : get_cart_data true s u ≠ []) :
    ∃ order s2,
      api_checkout true true n1 s u pm cust = (.ok order, s2) ∧
      order.total = cartTotal (get_cart_data true s u) ∧
      order.status = "confirmed" ∧
      get_cart_data true s2 u = [] ∧
      api_checkout true true n2 s2 u pm cust = (.error (.badRequest "cart empty"), s2) := by
  have hne : (get_cart_data true s u).isEmpty = false := by
    cases hc : get_cart_data true s u with
    | nil => exact absurd hc h
    | cons a l => rfl
  refine ⟨{ order_id := n1, user_id := u, items := get_cart_data true s u,
            total := cartTotal (get_cart_data true s u),
            payment_method := pm.getD "card", customer := cust.getD "",
            status := "confirmed" },
          (set_cart_data true s u []).1, ?_, rfl, rfl, get_set_cart s u [], ?_⟩
  · simp [api_checkout, hne]
  · simp [api_checkout, get_set_cart s u []]

/-- Witness for C1 on a concrete populated cart. -/
theorem checkout_clears_cart_not_idempotent_witness :
    ∃ order s2,
      api_checkout true true 7 demoStore "u1" none none = (.ok order, s2) ∧
      order.total = cartTotal (get_cart_data true demoStore "u1") ∧
      order.status = "confirmed" ∧
      get_cart_data true s2 "u1" = [] ∧
      api_checkout true true 8 s2 "u1" none none =
        (.error (.badRequest "cart empty"), s2) :=
  checkout_clears_cart_not_idempotent demoStore "u1" none none 7 8 (by decide)

/-- C3: checkout on an empty cart fails with the EmptyCart error and mutates
no state: every user's cart reads the same after the failed call. -/
theorem checkout_empty_cart_no_mutation (s : Store) (u : String)
    (pm cust : Option String) (n : Nat) (h : get_cart_data true s u = []) :
    api_checkout true true n s u pm cust = (.error (.badRequest "cart empty"), s) ∧
    ∀ v : String,
      get_cart_data true (api_checkout true true n s u pm cust).2 v =
        get_cart_data true s v := by
  have he : api_checkout true true n s u pm cust = (.error (.badRequest "cart empty"), s) := by
    simp [api_checkout, h]
  exact ⟨he, fun v => by rw [he]⟩

/-- Witness for C3 on a concrete empty store. -/
theorem checkout_empty_cart_no_mutation_witness :
    api_checkout true true 7 emptyStore "u1" none none =
      (.error (.badRequest "cart empty"), emptyStore) ∧
    ∀ v : String,
      get_cart_data true (api_checkout true true 7 emptyStore "u1" none none).2 v =
        get_cart_data true emptyStore v :=
  checkout_empty_cart_no_mutation emptyStore "u1" none none 7 (by decide)

/-- C8: adding a product id that does not resolve in the catalog fails with
the NotFound error (`abort(404, "product not found")`) and leaves the user's
cart unchanged. -/
theorem add_unknown_product_not_found (cat : List Product) (s : Store) (u : String)
    (pid : Nat) (q : Option Int) (hpid : pid ≠ 0) (hp : findById cat pid = none) :
    api_cart_add cat true true s u (some pid) q =
      (.error (.notFound "product not found"), s) ∧
    get_cart_data true (api_cart_add cat true true s u (some pid) q).2 u =
      get_cart_data true s u := by
  have he : api_cart_add cat true true s u (some pid) q =
      (.error (.notFound "product not found"), s) := by
    simp [api_cart_add, hpid, hp]
  exact ⟨he, by rw [he]⟩

/-- Witness for C8: product 99 is not in the demo catalog. -/
theorem add_unknown_product_not_found_witness :
    api_cart_add demoCatalog true true demoStore "u1" (some 99) (some 1) =
      (.error (.notFound "product not found"), demoStore) ∧
    get_cart_data true
        (api_cart_add demoCatalog true true demoStore "u1" (some 99) (some 1)).2 "u1" =
      get_cart_data true demoStore "u1" :=
  add_unknown_product_not_found demoCatalog demoStore "u1" 99 (some 1)
    (by decide) (by decide)

/-- C2: adding the same product twice accumulates quantities (q1 then q2
gives q1 + q2, the line being created with q1 when absent), and each add
refreshes the title/price snapshot from the catalog state at that moment. -/
theorem add_is_additive_and_refreshes_snapshot (cat1 cat2 : List Product)
    (s : Store) (u : String) (pid : Nat) (p1 p2 : Product) (q1 q2 : Int)
    (hpid : pid ≠ 0) (hp1 : findById cat1 pid = some p1)
    (hp2 : findById cat2 pid = some p2) (_hq1 : 0 < q1) (_hq2 : 0 < q2)
    (habs : assocGet (get_cart_data true s u) (toString pid) = none) :
    ∃ c1 s1 c2 s2,
      api_cart_add cat1 true true s u (some pid) (some q1) = (.ok c1, s1) ∧
      assocGet c1 (toString pid) =
        some { quantity := q1, title := p1.title, price := p1.price } ∧
      api_cart_add cat2 true true s1 u (some pid) (some q2) = (.ok c2, s2) ∧
      assocGet c2 (toString pid) =
        some { quantity := q1 + q2, title := p2.title, price := p2.price } := by
  refine ⟨assocSet (get_cart_data true s u) (toString pid)
            { quantity := q1, title := p1.title, price := p1.price },
          (set_cart_data true s u (assocSet (get_cart_data true s u) (toString pid)
            { quantity := q1, title := p1.title, price := p1.price })).1,
          assocSet (assocSet (get_cart_data true s u) (toString pid)
              { quantity := q1, title := p1.title, price := p1.price }) (toString pid)
            { quantity := q1 + q2, title := p2.title, price := p2.price },
          (set_cart_data true
            (set_cart_data true s u (assocSet (get_cart_data true s u) (toString pid)
              { quantity := q1, title := p1.title, price := p1.price })).1 u
            (assocSet (assocSet (get_cart_data true s u) (toString pid)
                { quantity := q1, title := p1.title, price := p1.price }) (toString pid)
              { quantity := q1 + q2, title := p2.title, price := p2.price })).1,
          ?_, assocGet_assocSet_self _ _ _, ?_, assocGet_assocSet_self _ _ _⟩
  · simp [api_cart_add, hpid, hp1, habs]
  · simp [api_cart_add, hpid, hp2, get_set_cart, assocGet_assocSet_self]

/-- Witness for C2: quantities 2 then 3, with the catalog repriced between
the two adds; the line ends at quantity 5 with the new snapshot. -/
theorem add_is_additive_and_refreshes_snapshot_witness :
    ∃ c1 s1 c2 s2,
      api_cart_add demoCatalog true true emptyStore "u1" (some 1) (some 2) = (.ok c1, s1) ∧
      assocGet c1 "1" =
        some { quantity := 2, title := "Phone Model X", price := 69999/100 } ∧
      api_cart_add repricedCatalog true true s1 "u1" (some 1) (some 3) = (.ok c2, s2) ∧
      assocGet c2 "1" =
        some { quantity := 2 + 3, title := "Phone Model X v2", price := 59999/100 } :=
  add_is_additive_and_refreshes_snapshot demoCatalog repricedCatalog emptyStore "u1" 1
    { id := 1, title := "Phone Model X", price := 69999/100 }
    { id := 1, title := "Phone Model X v2", price := 59999/100 }
    2 3 (by decide) rfl rfl (by decide) (by decide) (by decide)

theorem assocHas_eq_true_iff {α : Type} (es : List (String × α)) (k : String) :
    assocHas es k = true ↔ ∃ v, assocGet es k = some v := by
  induction es with
  | nil => simp [assocHas, assocGet]
  | cons e es ih =>
    by_cases h : e.1 = k <;> simp [assocHas, assocGet, h, ih]

theorem assocGet_map_update {α : Type} (es : List (String × α)) (k : String)
    (f : α → α) {v : α} (h : assocGet es k = some v) :
    assocGet (es.map (fun e => if e.1 = k then (e.1, f e.2) else e)) k = some (f v) := by
  induction es with
  | nil => simp [assocGet] at h
  | cons e es ih =>
    by_cases he : e.1 = k
    · simp [assocGet, he] at h
      simp [assocGet, he, h]
    · simp [assocGet, he] at h
      simp [assocGet, he, ih h]

/-- C4: for a product currently in the cart, update with q ≤ 0 removes the
line and with q > 0 sets the line's quantity to exactly q (absolute, not
additive, keeping the snapshot fields); for a product not in the cart it
fails with the NotFound error. -/
theorem update_absolute_semantics (s : Store) (u : String) (pid : Nat) (q : Int) :
    (∀ line, assocGet (get_cart_data true s u) (toString pid) = some line →
      (q ≤ 0 → ∃ c2 s2,
        api_cart_update true true s u (some pid) (some q) = (.ok c2, s2) ∧
        assocGet c2 (toString pid) = none) ∧
      (0 < q → ∃ c2 s2,
        api_cart_update true true s u (some pid) (some q) = (.ok c2, s2) ∧
        assocGet c2 (toString pid) = some { line with quantity := q })) ∧
    (assocGet (get_cart_data true s u) (toString pid) = none →
      api_cart_update true true s u (some pid) (some q) =
        (.error (.notFound "item not in cart"), s)) := by
  constructor
  · intro line hline
    have hhas : assocHas (get_cart_data true s u) (toString pid) = true :=
      (assocHas_eq_true_iff _ _).2 ⟨line, hline⟩
    constructor
    · intro hq
      refine ⟨assocPop (get_cart_data true s u) (toString pid),
        (set_cart_data true s u (assocPop (get_cart_data true s u) (toString pid))).1,
        ?_, assocGet_assocPop_self _ _⟩
      simp [api_cart_update, pidKey, hhas, hq]
    · intro hq
      have hq2 : ¬ (q ≤ 0) := not_le.2 hq
      refine ⟨(get_cart_data true s u).map
          (fun e => if e.1 = toString pid then (e.1, { e.2 with quantity := q }) else e),
        (set_cart_data true s u ((get_cart_data true s u).map
          (fun e => if e.1 = toString pid then (e.1, { e.2 with quantity := q }) else e))).1,
        ?_, assocGet_map_update _ _ (fun l => { l with quantity := q }) hline⟩
      simp [api_cart_update, pidKey, hhas, hq2]
  · intro hnone
    have hhas : assocHas (get_cart_data true s u) (toString pid) = false :=
      (assocHas_eq_false_iff _ _).2 hnone
    simp [api_cart_update, pidKey, hhas]

/-- Witness for C4: removal at q = 0, absolute set at q = 5 from prior
quantity 2, and NotFound for a product not in the cart. -/
theorem update_absolute_semantics_witness :
    (∃ c2 s2, api_cart_update true true demoStore "u1" (some 1) (some 0) = (.ok c2, s2) ∧
        assocGet c2 (toString 1) = none) ∧
    (∃ c2 s2, api_cart_update true true demoStore "u1" (some 1) (some 5) = (.ok c2, s2) ∧
        assocGet c2 (toString 1) = some { demoLine with quantity := 5 }) ∧
    api_cart_update true true demoStore "u1" (some 2) (some 5) =
      (.error (.notFound "item not in cart"), demoStore) :=
  ⟨((update_absolute_semantics demoStore "u1" 1 0).1 demoLine rfl).1 (by decide),
   ((update_absolute_semantics demoStore "u1" 1 5).1 demoLine rfl).2 (by decide),
   (update_absolute_semantics demoStore "u1" 2 5).2 rfl⟩

/-- C9: remove on an absent product is a no-op returning the unchanged cart
without error; on a present product it deletes the line, so a second remove
returns exactly the same cart and store (remove ∘ remove = remove), and after
remove or update(q = 0) the product is absent from the cart. -/
theorem remove_noop_idempotent (s : Store) (u : String) (pid : Nat) :
    (assocGet (get_cart_data true s u) (toString pid) = none →
      api_cart_delete true true s u (some pid) = (.ok (get_cart_data true s u), s)) ∧
    (∀ line, assocGet (get_cart_data true s u) (toString pid) = some line →
      ∃ c2 s2, api_cart_delete true true s u (some pid) = (.ok c2, s2) ∧
        assocGet c2 (toString pid) = none ∧
        api_cart_delete true true s2 u (some pid) = (.ok c2, s2)) ∧
    (∀ line, assocGet (get_cart_data true s u) (toString pid) = some line →
      ∃ c2 s2, api_cart_update true true s u (some pid) (some 0) = (.ok c2, s2) ∧
        assocGet c2 (toString pid) = none) := by
  refine ⟨?_, ?_, ?_⟩
  · intro hnone
    have hhas : assocHas (get_cart_data true s u) (toString pid) = false :=
      (assocHas_eq_false_iff _ _).2 hnone
    simp [api_cart_delete, pidKey, hhas]
  · intro line hline
    have hhas : assocHas (get_cart_data true s u) (toString pid) = true :=
      (assocHas_eq_true_iff _ _).2 ⟨line, hline⟩
    have hpop : assocGet (assocPop (get_cart_data true s u) (toString pid)) (toString pid) = none :=
      assocGet_assocPop_self _ _
    have hhas2 : assocHas (assocPop (get_cart_data true s u) (toString pid)) (toString pid) = false :=
      (assocHas_eq_false_iff _ _).2 hpop
    refine ⟨assocPop (get_cart_data true s u) (toString pid),
      (set_cart_data true s u (assocPop (get_cart_data true s u) (toString pid))).1,
      ?_, hpop, ?_⟩
    · simp [api_cart_delete, pidKey, hhas]
    · simp [api_cart_delete, pidKey, get_set_cart, hhas2]
  · intro line hline
    have hhas : assocHas (get_cart_data true s u) (toString pid) = true :=
      (assocHas_eq_true_iff _ _).2 ⟨line, hline⟩
    refine ⟨assocPop (get_cart_data true s u) (toString pid),
      (set_cart_data true s u (assocPop (get_cart_data true s u) (toString pid))).1,
      ?_, assocGet_assocPop_self _ _⟩
    simp [api_cart_update, pidKey, hhas]

/-- Witness for C9 on the demo store: product 2 is absent (no-op), product 1
is present (deleted, idempotently, by remove and by update with 0). -/
theorem remove_noop_idempotent_witness :
    api_cart_delete true true demoStore "u1" (some 2) =
      (.ok (get_cart_data true demoStore "u1"), demoStore) ∧
    (∃ c2 s2, api_cart_delete true true demoStore "u1" (some 1) = (.ok c2, s2) ∧
      assocGet c2 (toString 1) = none ∧
      api_cart_delete true true s2 "u1" (some 1) = (.ok c2, s2)) ∧
    (∃ c2 s2, api_cart_update true true demoStore "u1" (some 1) (some 0) = (.ok c2, s2) ∧
      assocGet c2 (toString 1) = none) :=
  ⟨(remove_noop_idempotent demoStore "u1" 2).1 rfl,
   (remove_noop_idempotent demoStore "u1" 1).2.1 demoLine rfl,
   (remove_noop_idempotent demoStore "u1" 1).2.2 demoLine rfl⟩

/-- C10: remove of an absent product issues no store write at all — the
store, including the stored cart's remaining TTL, is exactly unchanged —
while remove of a present product issues exactly one full-cart write (with a
fresh 24h TTL on the written value). -/
theorem remove_write_discipline (s : Store) (u : String) (pid : Nat) :
    (assocGet (get_cart_data true s u) (toString pid) = none →
      (api_cart_delete true true s u (some pid)).2 = s) ∧
    (∀ line, assocGet (get_cart_data true s u) (toString pid) = some line →
      (api_cart_delete true true s u (some pid)).2.writeCount = s.writeCount + 1 ∧
      assocGet (api_cart_delete true true s u (some pid)).2.entries u =
        some { value := assocPop (get_cart_data true s u) (toString pid),
               ttl := CART_TTL }) := by
  constructor
  · intro hnone
    have hhas : assocHas (get_cart_data true s u) (toString pid) = false :=
      (assocHas_eq_false_iff _ _).2 hnone
    simp [api_cart_delete, pidKey, hhas]
  · intro line hline
    have hhas : assocHas (get_cart_data true s u) (toString pid) = true :=
      (assocHas_eq_true_iff _ _).2 ⟨line, hline⟩
    constructor
    · simp [api_cart_delete, pidKey, hhas, set_cart_data]
    · simp [api_cart_delete, pidKey, hhas, set_cart_data, assocGet_assocSet_self]

/-- Witness for C10 on the demo store. -/
theorem remove_write_discipline_witness :
    (api_cart_delete true true demoStore "u1" (some 2)).2 = demoStore ∧
    (api_cart_delete true true demoStore "u1" (some 1)).2.writeCount =
      demoStore.writeCount + 1 ∧
    assocGet (api_cart_delete true true demoStore "u1" (some 1)).2.entries "u1" =
      some { value := assocPop (get_cart_data true demoStore "u1") (toString 1),
             ttl := CART_TTL } :=
  ⟨(remove_write_discipline demoStore "u1" 2).1 rfl,
   (remove_write_discipline demoStore "u1" 1).2 demoLine rfl⟩

/-- C6: session-store failures never surface to the caller: a failing read
degrades to the empty mapping, and an add whose write fails still returns
the updated in-memory cart (the same cart a successful write would return)
while the persisted entries are left unchanged, so a subsequent read does
not reflect the mutation. -/
theorem store_failure_not_surfaced (cat : List Product) (s : Store) (u : String)
    (pid : Nat) (p : Product) (q : Option Int)
    (hpid : pid ≠ 0) (hp : findById cat pid = some p) :
    get_cart_data false s u = [] ∧
    ∃ c2, api_cart_add cat true false s u (some pid) q =
        (.ok c2, { s with writeCount := s.writeCount + 1 }) ∧
      (api_cart_add cat true true s u (some pid) q).1 = .ok c2 ∧
      get_cart_data true (api_cart_add cat true false s u (some pid) q).2 u =
        get_cart_data true s u := by
  refine ⟨rfl,
    assocSet (get_cart_data true s u) (toString pid)
      { quantity := ((assocGet (get_cart_data true s u) (toString pid)).map
          CartLine.quantity).getD 0 + q.getD 1,
        title := p.title, price := p.price },
    ?_, ?_, ?_⟩
  · simp [api_cart_add, hpid, hp, set_cart_data]
  · simp [api_cart_add, hpid, hp]
  · have h2 : (api_cart_add cat true false s u (some pid) q).2 =
        { s with writeCount := s.writeCount + 1 } := by
      simp [api_cart_add, hpid, hp, set_cart_data]
    rw [h2]
    rfl

/-- Witness for C6 on the demo store and catalog. -/
theorem store_failure_not_surfaced_witness :
    get_cart_data false demoStore "u1" = [] ∧
    ∃ c2, api_cart_add demoCatalog true false demoStore "u1" (some 1) (some 1) =
        (.ok c2, { demoStore with writeCount := demoStore.writeCount + 1 }) ∧
      (api_cart_add demoCatalog true true demoStore "u1" (some 1) (some 1)).1 = .ok c2 ∧
      get_cart_data true
          (api_cart_add demoCatalog true false demoStore "u1" (some 1) (some 1)).2 "u1" =
        get_cart_data true demoStore "u1" :=
  store_failure_not_surfaced demoCatalog demoStore "u1" 1
    { id := 1, title := "Phone Model X", price := 69999/100 }
    (some 1) (by decide) rfl

/-- Counterexample to C5: the handler performs no quantity validation, so
`add(u1, product 1, quantity 0)` succeeds (HTTP 201) instead of failing with
InvalidArgument, creating a line with quantity 0. -/
theorem add_zero_quantity_accepted :
    api_cart_add demoCatalog true true emptyStore "u1" (some 1) (some 0) =
      (.ok [("1", { quantity := 0, title := "Phone Model X", price := 69999/100 })],
       { entries := [("u1",
           { value := [("1", { quantity := 0, title := "Phone Model X",
                               price := 69999/100 })],
             ttl := CART_TTL })],
         writeCount := 1 }) := by
  rfl

/-- C5 (amended): add fails with InvalidArgument (`abort(400)`) when
product_id is absent from the request, leaving the cart unchanged; the
quantity field is not validated, so any integer quantity — zero or negative
included — is accepted for a product that resolves in the catalog. -/
theorem add_invalid_argument_semantics (cat : List Product) (s : Store)
    (u : String) (q : Option Int) (pid : Nat) (p : Product)
    (hpid : pid ≠ 0) (hp : findById cat pid = some p) :
    api_cart_add cat true true s u none q =
      (.error (.badRequest "product_id required"), s) ∧
    get_cart_data true (api_cart_add cat true true s u none q).2 u =
      get_cart_data true s u ∧
    ∃ c2 s2, api_cart_add cat true true s u (some pid) q = (.ok c2, s2) := by
  refine ⟨rfl, rfl,
    assocSet (get_cart_data true s u) (toString pid)
      { quantity := ((assocGet (get_cart_data true s u) (toString pid)).map
          CartLine.quantity).getD 0 + q.getD 1,
        title := p.title, price := p.price },
    (set_cart_data true s u (assocSet (get_cart_data true s u) (toString pid)
      { quantity := ((assocGet (get_cart_data true s u) (toString pid)).map
          CartLine.quantity).getD 0 + q.getD 1,
        title := p.title, price := p.price })).1, ?_⟩
  simp [api_cart_add, hpid, hp]

/-- Witness for the amended C5: a missing product_id is rejected with the
cart unchanged, while a negative quantity (-5) is accepted. -/
theorem add_invalid_argument_semantics_witness :
    api_cart_add demoCatalog true true demoStore "u1" none (some (-5)) =
      (.error (.badRequest "product_id required"), demoStore) ∧
    get_cart_data true
        (api_cart_add demoCatalog true true demoStore "u1" none (some (-5))).2 "u1" =
      get_cart_data true demoStore "u1" ∧
    ∃ c2 s2, api_cart_add demoCatalog true true demoStore "u1" (some 1) (some (-5)) =
      (.ok c2, s2) :=
  add_invalid_argument_semantics demoCatalog demoStore "u1" (some (-5)) 1
    { id := 1, title := "Phone Model X", price := 69999/100 } (by decide) rfl

/-! ### Lemmas for the positive-quantity invariant -/

theorem cartWF_get (s : Store) (hs : StoreWF s) (ro : Bool) (u : String) :
    CartWF (get_cart_data ro s u) := by
  intro l hl
  cases ro with
  | false => simp [get_cart_data] at hl
  | true =>
    simp only [get_cart_data, if_pos] at hl
    cases hg : assocGet s.entries u with
    | none => rw [hg] at hl; simp at hl
    | some sc =>
      rw [hg] at hl
      simp only [Option.map_some', Option.getD_some] at hl
      exact hs (u, sc) (assocGet_mem hg) l hl

theorem storeWF_set (s : Store) (u : String) (c : Cart) (wo : Bool)
    (hs : StoreWF s) (hc : CartWF c) : StoreWF (set_cart_data wo s u c).1 := by
  cases wo with
  | false =>
    intro e he l hl
    have he2 : e ∈ s.entries := he
    exact hs e he2 l hl
  | true =>
    intro e he l hl
    have he2 : e ∈ assocSet s.entries u ⟨c, CART_TTL⟩ := he
    rcases mem_assocSet he2 with h | h
    · subst h
      exact hc l hl
    · exact hs e h l hl

theorem storeWF_applyOp (cat : List Product) (s : Store) (op : CartOp)
    (hs : StoreWF s) (hop : opPosQty op) : StoreWF (applyOp cat s op) := by
  cases op with
  | opGet u => exact hs
  | opAdd u pid q =>
    cases pid with
    | none => exact hs
    | some n =>
      by_cases hn : n = 0
      · simpa [applyOp, api_cart_add, hn] using hs
      · cases hf : findById cat n with
        | none => simpa [applyOp, api_cart_add, hn, hf] using hs
        | some p =>
          have hcart : CartWF (get_cart_data true s u) := cartWF_get s hs true u
          have hq : 0 < q.getD 1 := hop
          have hprev : 0 ≤ ((assocGet (get_cart_data true s u) (toString n)).map
              CartLine.quantity).getD 0 := by
            cases hg : assocGet (get_cart_data true s u) (toString n) with
            | none => simp
            | some l0 =>
              simp only [Option.map_some', Option.getD_some]
              exact le_of_lt (hcart _ (assocGet_mem hg))
          have hline : CartWF (assocSet (get_cart_data true s u) (toString n)
              { quantity := ((assocGet (get_cart_data true s u) (toString n)).map
                  CartLine.quantity).getD 0 + q.getD 1,
                title := p.title, price := p.price }) := by
            intro l hl
            rcases mem_assocSet hl with h | h
            · subst h
              exact add_pos_of_nonneg_of_pos hprev hq
            · exact hcart l h
          have hres : applyOp cat s (.opAdd u (some n) q) =
              (set_cart_data true s u (assocSet (get_cart_data true s u) (toString n)
                { quantity := ((assocGet (get_cart_data true s u) (toString n)).map
                    CartLine.quantity).getD 0 + q.getD 1,
                  title := p.title, price := p.price })).1 := by
            simp [applyOp, api_cart_add, hn, hf]
          rw [hres]
          exact storeWF_set s u _ true hs hline
  | opUpdate u pid q =>
    cases hh : assocHas (get_cart_data true s u) (pidKey pid) with
    | false => simpa [applyOp, api_cart_update, hh] using hs
    | true =>
      by_cases hq : q.getD 0 ≤ 0
      · have hres : applyOp cat s (.opUpdate u pid q) =
            (set_cart_data true s u
              (assocPop (get_cart_data true s u) (pidKey pid))).1 := by
          simp [applyOp, api_cart_update, hh, hq]
        rw [hres]
        refine storeWF_set s u _ true hs ?_
        intro l hl
        exact cartWF_get s hs true u l (mem_assocPop hl)
      · have hq2 : 0 < q.getD 0 := lt_of_not_le hq
        have hres : applyOp cat s (.opUpdate u pid q) =
            (set_cart_data true s u ((get_cart_data true s u).map
              (fun e => if e.1 = pidKey pid
                then (e.1, { e.2 with quantity := q.getD 0 }) else e))).1 := by
          simp [applyOp, api_cart_update, hh, hq]
        rw [hres]
        refine storeWF_set s u _ true hs ?_
        intro l hl
        rcases List.mem_map.1 hl with ⟨l0, hl0, rfl⟩
        by_cases he : l0.1 = pidKey pid
        · simpa [he] using hq2
        · simpa [he] using cartWF_get s hs true u l0 hl0
  | opRemove u pid =>
    cases hh : assocHas (get_cart_data true s u) (pidKey pid) with
    | false => simpa [applyOp, api_cart_delete, hh] using hs
    | true =>
      have hres : applyOp cat s (.opRemove u pid) =
          (set_cart_data true s u
            (assocPop (get_cart_data true s u) (pidKey pid))).1 := by
        simp [applyOp, api_cart_delete, hh]
      rw [hres]
      refine storeWF_set s u _ true hs ?_
      intro l hl
      exact cartWF_get s hs true u l (mem_assocPop hl)
  | opCheckout u pm c =>
    cases hc : (get_cart_data true s u).isEmpty with
    | true => simpa [applyOp, api_checkout, hc] using hs
    | false =>
      have hres : applyOp cat s (.opCheckout u pm c) = (set_cart_data true s u []).1 := by
        simp [applyOp, api_checkout, hc]
      rw [hres]
      exact storeWF_set s u [] true hs (fun l hl => by simp at hl)

theorem storeWF_runOps (cat : List Product) (ops : List CartOp) :
    ∀ s : Store, StoreWF s → (∀ op ∈ ops, opPosQty op) →
      StoreWF (runOps cat s ops) := by
  induction ops with
  | nil => intro s hs _; exact hs
  | cons op ops ih =>
    intro s hs hpos
    exact ih _ (storeWF_applyOp cat s op hs (hpos op (List.mem_cons_self _ _)))
      (fun o ho => hpos o (List.mem_cons_of_mem _ ho))

/-- Counterexample to C7: a single, successful add request with quantity 0 —
which the code accepts — leaves a cart line whose quantity is not positive. -/
theorem positive_quantity_invariant_fails :
    (∃ c, (api_cart_add demoCatalog true true emptyStore "u1" (some 1) (some 0)).1 =
      .ok c) ∧
    ∃ line, assocGet (get_cart_data true
        (runOps demoCatalog emptyStore [CartOp.opAdd "u1" (some 1) (some 0)]) "u1")
      (toString 1) = some line ∧ ¬ (0 < line.quantity) := by
  refine ⟨⟨[("1", { quantity := 0, title := "Phone Model X", price := 69999/100 })], rfl⟩,
    { quantity := 0, title := "Phone Model X", price := 69999/100 }, rfl, by decide⟩

/-- C7 (amended): starting from a store holding no carts, after any sequence
of get/add/update/remove/checkout requests in which every add carries a
positive quantity (a restriction the handler itself does not enforce), every
cart line of every user has a positive quantity. -/
theorem cart_quantities_positive (cat : List Product) (ops : List CartOp)
    (hpos : ∀ op ∈ ops, opPosQty op) :
    ∀ u : String, ∀ l ∈ get_cart_data true (runOps cat emptyStore ops) u,
      0 < l.2.quantity := by
  intro u l hl
  have hempty : StoreWF emptyStore := by
    intro e he
    simp [emptyStore] at he
  exact cartWF_get _ (storeWF_runOps cat ops emptyStore hempty hpos) true u l hl

/-- Witness for the amended C7: after a four-request session over two users,
the line user u1 ends up with has positive quantity. -/
theorem cart_quantities_positive_witness :
    0 < (("1", ({ quantity := 5, title := "Phone Model X",
                  price := 69999/100 } : CartLine)) : String × CartLine).2.quantity :=
  cart_quantities_positive demoCatalog
    [CartOp.opAdd "u1" (some 1) (some 2),
     CartOp.opAdd "u2" (some 2) none,
     CartOp.opRemove "u2" (some 2),
     CartOp.opUpdate "u1" (some 1) (some 5)]
    (by intro op hop; fin_cases hop <;> simp [opPosQty])
    "u1"
    ("1", { quantity := 5, title := "Phone Model X", price := 69999/100 })
    (by exact List.Mem.head _)
